import Mathlib

/-!
Verification development for the MSPATHS-to-BIDS conversion script
(`mspaths_mri_to_bids.py`).  The Python source is shallowly embedded:
strings are lists of characters, the file system is an explicit value
(directories with contained file names), the external converter is an
opaque input (an exit code together with the files it left behind), and
every fallible step is modelled with `Option`.  Functions carry the names
of the Python functions they embed where Lean allows it.

Recursions that are not structural in the Python source (glob matching,
substring replacement, decimal rendering, the collision while-loop) are
written with an explicit fuel argument whose initial value provably
suffices, so that every definition evaluates by kernel reduction.
-/

/-- Python strings are modelled as lists of characters. -/
abbrev Str := List Char

/-- Character is an ASCII digit (0-9). -/
def isDig (c : Char) : Bool := 48 ≤ c.toNat && c.toNat ≤ 57

/-- Numeric value of an ASCII digit. -/
def digVal (c : Char) : Nat := c.toNat - 48

/-- ASCII digit for a value 0-9. -/
def digitChar (n : Nat) : Char := Char.ofNat (48 + n)

/-- Does the second list start with the first one? -/
def startsWithSeq : Str → Str → Bool
  | [], _ => true
  | _ :: _, [] => false
  | p :: ps, c :: cs => p == c && startsWithSeq ps cs

/-- Python `sub in s`: contiguous substring containment. -/
def isSubstrOf (sub : Str) : Str → Bool
  | [] => startsWithSeq sub []
  | c :: cs => startsWithSeq sub (c :: cs) || isSubstrOf sub cs

/-- Glob matching for the patterns the script uses: a literal character
matches itself and an asterisk matches any (possibly empty) run of
characters.  Fuel-driven so that it evaluates by kernel reduction; each
step consumes a pattern or subject character, so the initial fuel in
`globMatch` always suffices. -/
def globMatchAux : Nat → Str → Str → Bool
  | 0, _, _ => false
  | fuel + 1, ps, s =>
    match ps, s with
    | [], [] => true
    | [], _ :: _ => false
    | '*' :: pr, [] => globMatchAux fuel pr []
    | '*' :: pr, c :: cr =>
        globMatchAux fuel pr (c :: cr) || globMatchAux fuel ('*' :: pr) cr
    | _ :: _, [] => false
    | p :: pr, c :: cr => p == c && globMatchAux fuel pr cr

/-- Entry point for glob matching (`glob`/`fnmatch` on a single path
component, as used by the script). -/
def globMatch (ps s : Str) : Bool := globMatchAux (ps.length + s.length + 1) ps s

/-- Python `str.replace(pat, rep)`: replace every non-overlapping
occurrence of `pat`, scanning left to right.  The script only calls it
with non-empty patterns.  Fuel-driven (one subject character is consumed
per step) so that it evaluates by kernel reduction. -/
def listReplaceAux : Nat → Str → Str → Str → Str
  | 0, _, _, s => s
  | fuel + 1, pat, rep, s =>
    match s with
    | [] => []
    | c :: cs =>
      if pat ≠ [] ∧ startsWithSeq pat (c :: cs) = true then
        rep ++ listReplaceAux fuel pat rep ((c :: cs).drop pat.length)
      else c :: listReplaceAux fuel pat rep cs

/-- Python `str.replace(pat, rep)`. -/
def listReplace (pat rep s : Str) : Str := listReplaceAux (s.length + 1) pat rep s

/-- Python `str.split(sep)` for a one-character separator: splits at every
occurrence and keeps empty fragments. -/
def splitChar (sep : Char) : Str → List Str
  | [] => [[]]
  | c :: cs =>
    match splitChar sep cs with
    | [] => [[]]
    | r :: rs => if c = sep then [] :: r :: rs else (c :: r) :: rs

/-- `os.path.join` for the absolute, slash-free components the script
builds. -/
def pathJoin (a b : Str) : Str := a ++ '/' :: b

/-- Decimal digits of a natural number, most significant first.
Fuel-driven; `natDigits` supplies fuel `n + 1`, which suffices because the
argument at least halves each step. -/
def natDigitsAux : Nat → Nat → Str
  | 0, _ => []
  | fuel + 1, n =>
    if n < 10 then [digitChar n]
    else natDigitsAux fuel (n / 10) ++ [digitChar (n % 10)]

/-- Decimal rendering of a natural number (Python `str(n)`). -/
def natDigits (n : Nat) : Str := natDigitsAux (n + 1) n

/-- Python format `f'{n:03}'`: zero-pad the decimal rendering to width 3. -/
def py03 (n : Nat) : Str :=
  List.replicate (3 - (natDigits n).length) '0' ++ natDigits n

/-- Zero-pad to width 2 (strftime `%m` / `%d`). -/
def pad2 (n : Nat) : Str := if n < 10 then '0' :: natDigits n else natDigits n

/-- Decimal value of a digit string (inverse of `natDigits`, used only in
proofs). -/
def unDigits (cs : Str) : Nat := cs.foldl (fun a c => a * 10 + digVal c) 0

/-- Python string comparison `<`: lexicographic by code point, a proper
leading fragment compares smaller. -/
def strLt : Str → Str → Bool
  | [], [] => false
  | [], _ :: _ => true
  | _ :: _, [] => false
  | a :: as, b :: bs => if a < b then true else if b < a then false else strLt as bs

/-- Insert into a sorted list, after any equal elements (the placement
`list.sort` gives a stable sort). -/
def insertIn (x : Str) : List Str → List Str
  | [] => [x]
  | y :: ys => if strLt y x then y :: insertIn x ys else x :: y :: ys

/-- Python `list.sort()` on strings: stable, ascending. -/
def sortStr : List Str → List Str
  | [] => []
  | x :: xs => insertIn x (sortStr xs)

/-- CPython `strptime` month pattern `1[0-2]|0[1-9]|[1-9]`: candidate
parses in regex preference order (value, remaining input). -/
def monthCands : Str → List (Nat × Str)
  | a :: b :: rest =>
    (if a = '1' ∧ (b = '0' ∨ b = '1' ∨ b = '2') then [(10 + digVal b, rest)] else []) ++
    (if a = '0' ∧ isDig b = true ∧ b ≠ '0' then [(digVal b, rest)] else []) ++
    (if isDig a = true ∧ a ≠ '0' then [(digVal a, b :: rest)] else [])
  | [a] => if isDig a = true ∧ a ≠ '0' then [(digVal a, [])] else []
  | [] => []

/-- CPython `strptime` day pattern `3[01]|[12]\d|0[1-9]|[1-9]`. -/
def dayCands : Str → List (Nat × Str)
  | a :: b :: rest =>
    (if a = '3' ∧ (b = '0' ∨ b = '1') then [(30 + digVal b, rest)] else []) ++
    (if (a = '1' ∨ a = '2') ∧ isDig b = true then [(digVal a * 10 + digVal b, rest)] else []) ++
    (if a = '0' ∧ isDig b = true ∧ b ≠ '0' then [(digVal b, rest)] else []) ++
    (if isDig a = true ∧ a ≠ '0' then [(digVal a, b :: rest)] else [])
  | [a] => if isDig a = true ∧ a ≠ '0' then [(digVal a, [])] else []
  | [] => []

/-- CPython `strptime` year pattern `%Y`: exactly four digits. -/
def yearTake : Str → Option (Nat × Str)
  | a :: b :: c :: d :: rest =>
    if isDig a = true ∧ isDig b = true ∧ isDig c = true ∧ isDig d = true then
      some (((digVal a * 10 + digVal b) * 10 + digVal c) * 10 + digVal d, rest)
    else none
  | _ => none

/-- Full regex match for the format `%Y%m%d`, with the backtracking order
of the regex alternatives; the whole input must be consumed. -/
def ymdMatch (cs : Str) : Option (Nat × Nat × Nat) :=
  match yearTake cs with
  | none => none
  | some (y, r1) =>
    (monthCands r1).findSome? fun mc =>
      (dayCands mc.2).findSome? fun dc =>
        if dc.2 = ([] : Str) then some (y, mc.1, dc.1) else none

/-- Gregorian leap year (as `datetime` checks it). -/
def isLeap (y : Nat) : Bool := y % 4 == 0 && (y % 100 != 0 || y % 400 == 0)

/-- Days in a month, used by `datetime`'s validation of the parsed day. -/
def daysInMonth (y m : Nat) : Nat :=
  if m = 2 then (if isLeap y then 29 else 28)
  else if m = 4 ∨ m = 6 ∨ m = 9 ∨ m = 11 then 30
  else 31

/-- `datetime.datetime.strptime(s, "%Y%m%d").strftime("%Y-%m-%d")` from
line 174 of the source: parse a date stamp and render it with dashes;
`none` models the `ValueError` the source catches.  The calendar check
mirrors the `datetime` constructor (month already 1-12 from the regex,
day bounded by the month length, year at least `MINYEAR`). -/
def pyStrptimeYmd (cs : Str) : Option Str :=
  match ymdMatch cs with
  | none => none
  | some (y, m, d) =>
    if 1 ≤ y ∧ 1 ≤ d ∧ d ≤ daysInMonth y m then
      some (natDigits y ++ '-' :: pad2 m ++ '-' :: pad2 d)
    else none

/-- One unpacked visit directory inside the scratch area, as the loop at
lines 73-103 of the source sees it: the enclosing directory name
(`f.split('/')[-2]`), the visit directory's own name
(`f.split('/')[-1]`), the exit code the external converter returned, and
the files present in the visit directory after the converter ran.  The
converter is opaque, so its exit code and its output files are
independent inputs of the model. -/
structure Visit where
  parentName : Str
  sessionName : Str
  exitCode : Int
  producedFiles : List Str
deriving DecidableEq, Repr

/-- One `shutil.copy` into the target layout. -/
structure Placement where
  src : Str
  dst : Str
deriving DecidableEq, Repr

/-- The log calls reachable from the per-visit loop of `extract_bundle`:
the unconditional info line before the converter runs, the error for a
file name that does not decompose into subject/session, and the error
for a missing sidecar.  (The loop contains no log call that depends on
the converter's exit status.) -/
inductive LogEvent where
  | converting (subject session : Str)
  | unknownFile
  | sidecarMissing (sidecar : Str)
deriving DecidableEq, Repr

/-- Line 84 of the source: pattern identifying a FLAIR derivative. -/
def flairPat : Str := "*FLAIR*MS-P*.nii.gz".data

/-- Line 85 of the source: pattern identifying a T1w derivative. -/
def t1Pat : Str := "*T1*MS-P*.nii.gz".data

/-- Line 89 of the source: `"FLAIR" if "FLAIR" in nifti else "T1w"`. -/
def modalityOf (nifti : Str) : Str :=
  if isSubstrOf "FLAIR".data nifti then "FLAIR".data else "T1w".data

/-- Line 91 of the source: `join(bidsroot, f'sub-..', f'ses-..', 'anat')`. -/
def targetDirOf (bidsroot subject session : Str) : Str :=
  pathJoin (pathJoin (pathJoin bidsroot ("sub-".data ++ subject)) ("ses-".data ++ session)) "anat".data

/-- Lines 87-99 of the source, body of `for nifti in flair_file + t1_file`:
copy the image to its target name and, when the sidecar exists next to
it, copy that too. -/
def perNifti (targetDir subject session : Str) (produced : List Str) (nifti : Str) : List Placement :=
  let sidecar := listReplace ".nii.gz".data ".json".data nifti
  let targetFile := "sub-".data ++ subject ++ "_ses-".data ++ session ++ '_' :: modalityOf nifti
  ⟨nifti, pathJoin targetDir (targetFile ++ ".nii.gz".data)⟩ ::
    (if sidecar ∈ produced then [⟨sidecar, pathJoin targetDir (targetFile ++ ".json".data)⟩] else [])

/-- Lines 73-99 of the source for one visit directory: recover the
subject from the enclosing directory name (`split('_')[1]`, the caught
IndexError skipping the visit), run the converter (whose `result` the
source never inspects), select FLAIR and T1 files by pattern, and copy
each selected file (plus sidecar when present).  Returns the copies made
into the target layout. -/
def processVisit (bidsroot : Str) (v : Visit) : List Placement :=
  match (splitChar '_' v.parentName).get? 1 with
  | none => []
  | some subject =>
    let flair := v.producedFiles.filter (fun n => globMatch flairPat n)
    let t1 := v.producedFiles.filter (fun n => globMatch t1Pat n)
    let targetDir := targetDirOf bidsroot subject v.sessionName
    (flair ++ t1).bind (perNifti targetDir subject v.sessionName v.producedFiles)

/-- The log events the same loop body emits for one visit. -/
def visitLogs (v : Visit) : List LogEvent :=
  match (splitChar '_' v.parentName).get? 1 with
  | none => [LogEvent.unknownFile]
  | some subject =>
    LogEvent.converting subject v.sessionName ::
      ((v.producedFiles.filter (fun n => globMatch flairPat n) ++
        v.producedFiles.filter (fun n => globMatch t1Pat n)).bind fun nifti =>
        let sidecar := listReplace ".nii.gz".data ".json".data nifti
        if sidecar ∈ v.producedFiles then [] else [LogEvent.sidecarMissing sidecar])

/-- Result of `extract_bundle`: the completion-ledger file afterwards
(`none` models an absent `processed_zipfiles.csv`), the copies placed in
the target layout, and the function's return value (the extracted visit
directories; empty on skip and on extraction failure). -/
structure BundleResult where
  ledger : Option (List Str)
  placements : List Placement
  visits : List Visit
deriving DecidableEq, Repr

/-- Lines 42-47 of the source: the ledger file exists and contains the
path on one of its lines. -/
def ledgerHas : Option (List Str) → Str → Bool
  | none, _ => false
  | some l, p => l.contains p

/-- Lines 104-106 of the source: `open('processed_zipfiles.csv', 'a')`
appends the path, creating the file if absent. -/
def appendLedger : Option (List Str) → Str → Option (List Str)
  | none, p => some [p]
  | some l, p => some (l ++ [p])

/-- `extract_bundle(path, bidsroot, ...)`, lines 26-108 of the source:
skip when the ledger already lists the path (lines 42-49); otherwise
extract the archive — `archive = none` models the caught extraction
failure of lines 61-66, which returns before the ledger is written —
then process every visit directory and finally append the path to the
ledger (lines 104-106).  Scratch-directory clearing and progress updates
have no observable effect on the modelled state. -/
def extract_bundle (ledger : Option (List Str)) (path : Str) (skipProcessed : Bool)
    (archive : Option (List Visit)) (bidsroot : Str) : BundleResult :=
  if skipProcessed && ledgerHas ledger path then ⟨ledger, [], []⟩
  else
    match archive with
    | none => ⟨ledger, [], []⟩
    | some visits => ⟨appendLedger ledger path, visits.bind (processVisit bidsroot), visits⟩

/-- One row of a subject's `sub-..._sessions.tsv` (the Session Registry):
a stable session identifier and the acquisition date it stands for. -/
structure RegRow where
  session_id : Str
  acq_time : Str
deriving DecidableEq, Repr

/-- One session directory inside a subject directory of the target
layout, with the names of the files it contains (the single modality
level that `glob(join(subject, ses_id, '*', ...))` scans through is
flattened away; the glob pattern applies to the file's base name). -/
structure Dir where
  name : Str
  files : List Str
deriving DecidableEq, Repr

/-- State of one subject while `cleanup_sessions` processes it: the
in-memory registry dataframe, the session directories on disk, and the
renames performed so far (recorded for observation; `os.rename` failure
paths are not modelled). -/
structure CleanupState where
  df : List RegRow
  dirs : List Dir
  dirRenames : List (Str × Str)
  fileRenames : List (Str × Str)
deriving DecidableEq, Repr

/-- `f'ses-{n:03}'` as the source builds session identifiers. -/
def sesIdStr (n : Nat) : Str := "ses-".data ++ py03 n

/-- Lines 187-190 of the source: starting from `ses_nr = s`, repeatedly
increment and re-render `ses_id = f'ses-{ses_nr+1:03}'` while that
identifier is still present in the registry; returns the final `ses_nr`.
The Python loop's first test re-checks the identifier that is already
known to collide, so the model starts directly with the increment.
Fuel-driven; `cleanupStep` passes one more than the registry size, which
always suffices (shown in `whileLoop_chosen_free`). -/
def whileLoop (ids : List Str) (sesNr : Nat) : Nat → Nat
  | 0 => sesNr
  | fuel + 1 =>
    let next := sesNr + 1
    if sesIdStr (next + 1) ∈ ids then whileLoop ids next fuel else next

/-- `os.rename` of a session directory: the first directory carrying the
old name now carries the new one. -/
def renameDir : List Dir → Str → Str → List Dir
  | [], _, _ => []
  | d :: ds, src, dst =>
    if d.name = src then { d with name := dst } :: ds else d :: renameDir ds src dst

/-- Lines 171-199 of the source, one iteration of
`for s in range(len(sessions))` for the stripped session name `raw` at
index `s`.  An unparseable name is skipped (line 175-177).  Otherwise the
candidate identifier is `f'ses-{s+1:03}'`; if the registry already holds
it with the same date the visit is skipped (line 182-184), and if it
holds it with a different date the while loop of lines 187-190 searches
forward for an identifier not yet in the registry.  The chosen row is
appended to the dataframe (line 192); the directory is renamed to
`f'ses-{s+1:03}'` — the loop index, exactly as line 195 writes it — and
the files matching `f'sub*ses-{raw}*'` under the directory named
`ses_id` (line 197; absent directory gives an empty glob) have the old
token replaced by `ses_id` (line 199). -/
def cleanupStep (st : CleanupState) (s : Nat) (raw : Str) : CleanupState :=
  match pyStrptimeYmd raw with
  | none => st
  | some sesDate =>
    let ids := st.df.map (fun r => r.session_id)
    let natural := sesIdStr (s + 1)
    let decision : Option Str :=
      if natural ∈ ids then
        if sesDate ∈ (st.df.filter (fun r => r.session_id = natural)).map (fun r => r.acq_time)
        then none
        else some (sesIdStr (whileLoop ids s (ids.length + 1) + 1))
      else some natural
    match decision with
    | none => st
    | some sesId =>
      let oldDirName := "ses-".data ++ raw
      let newDirName := sesIdStr (s + 1)
      let dirs1 := renameDir st.dirs oldDirName newDirName
      let globPat := "sub*ses-".data ++ raw ++ ['*']
      let globbed :=
        match dirs1.find? (fun d => d.name = sesId) with
        | none => []
        | some d => d.files.filter (fun f => globMatch globPat f)
      let prs := globbed.map (fun f => (f, listReplace ("ses-".data ++ raw) sesId f))
      let dirs2 := dirs1.map fun d =>
        if d.name = sesId then
          { d with files := d.files.map fun f =>
              if globMatch globPat f then listReplace ("ses-".data ++ raw) sesId f else f }
        else d
      { df := st.df ++ [⟨sesId, sesDate⟩],
        dirs := dirs2,
        dirRenames := st.dirRenames ++ [(oldDirName, newDirName)],
        fileRenames := st.fileRenames ++ prs }

/-- Line 162 of the source: `basename(s).replace('ses-','')` over the
directories matching `glob(join(subject, 'ses-*'))`. -/
def sessionNames (dirs : List Dir) : List Str :=
  (dirs.filter (fun d => globMatch "ses-*".data d.name)).map
    (fun d => listReplace "ses-".data [] d.name)

/-- Line 163 of the source: `sessions.sort(reverse=False)`. -/
def sortedSessions (dirs : List Dir) : List Str := sortStr (sessionNames dirs)

/-- The first `n` iterations of the per-subject loop of
`cleanup_sessions`, starting from the directories on disk and the loaded
registry.  (The source's `sub-{subject_id}_sessions.tsv` path uses a
`subject_id` binding that `cleanup_sessions` itself never defines; the
registry rows are taken here as an input, matching the evident intent of
lines 166-169.) -/
def cleanupIters (dirs0 : List Dir) (df0 : List RegRow) (n : Nat) : CleanupState :=
  (((sortedSessions dirs0).enum).take n).foldl (fun st p => cleanupStep st p.1 p.2)
    ⟨df0, dirs0, [], []⟩

/-- The whole per-subject pass of `cleanup_sessions` (lines 161-202). -/
def cleanupSubject (dirs0 : List Dir) (df0 : List RegRow) : CleanupState :=
  cleanupIters dirs0 df0 (sortedSessions dirs0).length

/-- A file-system operation performed while persisting the registry. -/
inductive FsOp where
  | write (path : Str) (content : Str)
  | rename (src dst : Str)
deriving DecidableEq, Repr

/-- One registry row as `to_csv(..., sep='\t')` renders it. -/
def renderRow (r : RegRow) : Str := r.session_id ++ '\t' :: r.acq_time ++ ['\n']

/-- The full text `to_csv(..., sep='\t', index=False)` produces: header
line then every row in order. -/
def renderTsv (df : List RegRow) : Str :=
  "session_id\tacq_time\n".data ++ df.bind renderRow

/-- Lines 166 and 201 of the source:
`join(subject, f'sub-{subject_id}_sessions.tsv')`. -/
def sessionsTsvPath (subjectDir subjectId : Str) : Str :=
  pathJoin subjectDir ("sub-".data ++ subjectId ++ "_sessions.tsv".data)

/-- Line 202 of the source: `sessions_df.to_csv(sessions_tsv, sep='\t',
index=False)`.  Pandas opens the destination path itself and writes the
rendered table into it, so the operation trace is a single direct write
to the final registry path. -/
def saveRegistryOps (subjectDir subjectId : Str) (df : List RegRow) : List FsOp :=
  [FsOp.write (sessionsTsvPath subjectDir subjectId) (renderTsv df)]

/-- Modelled from the spec: write-new-then-replace persistence, the shape
section 4.6 of the specification prescribes for `save` — first write the
new content to a separate path, then rename that path onto the final
registry path.  Used to compare the specified shape with the trace the
source actually produces. -/
def isWriteNewThenReplace (finalPath : Str) : List FsOp → Bool
  | [FsOp.write p _, FsOp.rename src dst] => p == src && dst == finalPath && !(p == finalPath)
  | _ => false

theorem digVal_digitChar (k : Nat) (h : k < 10) : digVal (digitChar k) = k := by
  interval_cases k <;> rfl

theorem unDigits_concat (cs : Str) (c : Char) :
    unDigits (cs ++ [c]) = unDigits cs * 10 + digVal c := by
  unfold unDigits
  rw [List.foldl_append]
  rfl

theorem unDigits_natDigitsAux (fuel : Nat) :
    ∀ n : Nat, n < fuel → unDigits (natDigitsAux fuel n) = n := by
  induction fuel with
  | zero => intro n h; omega
  | succ f ih =>
    intro n h
    rw [natDigitsAux]
    by_cases h10 : n < 10
    · simp only [if_pos h10]
      show unDigits [digitChar n] = n
      simp [unDigits, digVal_digitChar n h10]
    · have hdiv : n / 10 < n := Nat.div_lt_self (by omega) (by omega)
      rw [if_neg h10, unDigits_concat, ih (n / 10) (by omega),
        digVal_digitChar (n % 10) (by omega)]
      omega

theorem unDigits_natDigits (n : Nat) : unDigits (natDigits n) = n :=
  unDigits_natDigitsAux (n + 1) n (by omega)

theorem foldl_digits_zeros (k : Nat) :
    (List.replicate k '0').foldl (fun a c => a * 10 + digVal c) 0 = 0 := by
  induction k with
  | zero => rfl
  | succ m ih => rw [List.replicate_succ]; simpa using ih

theorem unDigits_py03 (n : Nat) : unDigits (py03 n) = n := by
  unfold py03 unDigits
  rw [List.foldl_append, foldl_digits_zeros]
  exact unDigits_natDigits n

theorem py03_inj {a b : Nat} (h : py03 a = py03 b) : a = b := by
  have := congrArg unDigits h
  rwa [unDigits_py03, unDigits_py03] at this

theorem sesIdStr_inj : Function.Injective sesIdStr := by
  intro a b h
  exact py03_inj (List.append_cancel_left h)

theorem exists_free_sesId (ids : List Str) (n : Nat) :
    ∃ i, i < ids.length + 1 ∧ sesIdStr (n + 2 + i) ∉ ids := by
  by_contra hc
  push_neg at hc
  have hinj : Function.Injective (fun i : Nat => sesIdStr (n + 2 + i)) := by
    intro a b hab
    have := sesIdStr_inj hab
    omega
  have hnd : ((List.range (ids.length + 1)).map fun i => sesIdStr (n + 2 + i)).Nodup :=
    (List.nodup_range _).map hinj
  have hsub : ((List.range (ids.length + 1)).map fun i => sesIdStr (n + 2 + i)) ⊆ ids := by
    intro x hx
    rcases List.mem_map.1 hx with ⟨i, hi, rfl⟩
    exact hc i (List.mem_range.1 hi)
  have hlen := (hnd.subperm hsub).length_le
  simp at hlen

theorem whileLoop_free (ids : List Str) :
    ∀ fuel n : Nat, (∃ i, i < fuel ∧ sesIdStr (n + 2 + i) ∉ ids) →
      sesIdStr (whileLoop ids n fuel + 1) ∉ ids := by
  intro fuel
  induction fuel with
  | zero =>
    intro n ⟨i, hi, _⟩
    omega
  | succ f ih =>
    intro n ⟨i, hi, hfree⟩
    show sesIdStr ((if sesIdStr (n + 1 + 1) ∈ ids then whileLoop ids (n + 1) f else n + 1) + 1)
      ∉ ids
    by_cases hm : sesIdStr (n + 1 + 1) ∈ ids
    · rw [if_pos hm]
      apply ih
      cases i with
      | zero => exact absurd hm (by simpa using hfree)
      | succ j =>
        refine ⟨j, by omega, ?_⟩
        have heq : n + 1 + 2 + j = n + 2 + (j + 1) := by omega
        rw [heq]
        exact hfree
    · rw [if_neg hm]
      exact hm

theorem whileLoop_chosen_free (ids : List Str) (n : Nat) :
    sesIdStr (whileLoop ids n (ids.length + 1) + 1) ∉ ids := by
  exact whileLoop_free ids (ids.length + 1) n (exists_free_sesId ids n)

theorem cleanupStep_noop (st : CleanupState) (s : Nat) (raw : Str)
    (h : pyStrptimeYmd raw = none) : cleanupStep st s raw = st := by
  unfold cleanupStep
  rw [h]

set_option maxHeartbeats 1000000 in
theorem cleanupStep_df_char (st : CleanupState) (s : Nat) (raw : Str) :
    (cleanupStep st s raw).df = st.df ∨
    ∃ id date, (cleanupStep st s raw).df = st.df ++ [⟨id, date⟩] ∧
      id ∉ st.df.map (fun r => r.session_id) := by
  cases hp : pyStrptimeYmd raw with
  | none => exact Or.inl (by rw [cleanupStep_noop st s raw hp])
  | some d =>
    by_cases h1 : sesIdStr (s + 1) ∈ st.df.map (fun r => r.session_id)
    · by_cases h2 :
        d ∈ (st.df.filter fun r => r.session_id = sesIdStr (s + 1)).map fun r => r.acq_time
      · refine Or.inl ?_
        simp only [cleanupStep, hp, h1, h2, if_true]
      · refine Or.inr ⟨sesIdStr (whileLoop (st.df.map fun r => r.session_id) s
          ((st.df.map fun r => r.session_id).length + 1) + 1), d, ?_,
          whileLoop_chosen_free (st.df.map fun r => r.session_id) s⟩
        simp only [cleanupStep, hp, h1, h2, if_true, if_false]
    · refine Or.inr ⟨sesIdStr (s + 1), d, ?_, h1⟩
      simp only [cleanupStep, hp, h1, if_false]

set_option maxHeartbeats 1000000 in
theorem cleanupStep_dirRenames_char (st : CleanupState) (s : Nat) (raw : Str) :
    (cleanupStep st s raw).dirRenames = st.dirRenames ∨
    ∃ ymd, pyStrptimeYmd raw = some ymd ∧
      (cleanupStep st s raw).dirRenames =
        st.dirRenames ++ [("ses-".data ++ raw, sesIdStr (s + 1))] := by
  cases hp : pyStrptimeYmd raw with
  | none => exact Or.inl (by rw [cleanupStep_noop st s raw hp])
  | some d =>
    by_cases h1 : sesIdStr (s + 1) ∈ st.df.map (fun r => r.session_id)
    · by_cases h2 :
        d ∈ (st.df.filter fun r => r.session_id = sesIdStr (s + 1)).map fun r => r.acq_time
      · refine Or.inl ?_
        simp only [cleanupStep, hp, h1, h2, if_true]
      · refine Or.inr ⟨d, rfl, ?_⟩
        simp only [cleanupStep, hp, h1, h2, if_true, if_false]
    · refine Or.inr ⟨d, rfl, ?_⟩
      simp only [cleanupStep, hp, h1, if_false]

theorem foldSteps_inv (P : CleanupState → Prop)
    (hstep : ∀ st s raw, P st → P (cleanupStep st s raw)) :
    ∀ (l : List (Nat × Str)) (st : CleanupState), P st →
      P (l.foldl (fun st p => cleanupStep st p.1 p.2) st) := by
  intro l
  induction l with
  | nil => intro st h; exact h
  | cons a as ih => intro st h; exact ih _ (hstep st a.1 a.2 h)

theorem foldSteps_noop : ∀ (l : List (Nat × Str)) (st : CleanupState),
    (∀ p ∈ l, pyStrptimeYmd p.2 = none) →
    l.foldl (fun st p => cleanupStep st p.1 p.2) st = st := by
  intro l
  induction l with
  | nil => intro st _; rfl
  | cons a as ih =>
    intro st h
    simp only [List.foldl_cons]
    rw [cleanupStep_noop st a.1 a.2 (h a (by simp))]
    exact ih st fun p hp => h p (by simp [hp])

theorem mem_insertIn {x y : Str} {l : List Str} : x ∈ insertIn y l ↔ x = y ∨ x ∈ l := by
  induction l with
  | nil => simp [insertIn]
  | cons a as ih =>
    unfold insertIn
    by_cases hc : strLt a y = true
    · rw [if_pos hc]
      simp only [List.mem_cons, ih]
      tauto
    · rw [if_neg hc]
      simp only [List.mem_cons]

theorem mem_sortStr {x : Str} {l : List Str} : x ∈ sortStr l ↔ x ∈ l := by
  induction l with
  | nil => exact Iff.rfl
  | cons a as ih =>
    unfold sortStr
    rw [mem_insertIn]
    simp [ih]

theorem startsWithSeq_append (s t : Str) : startsWithSeq s (s ++ t) = true := by
  induction s with
  | nil => rfl
  | cons c cs ih => simp [startsWithSeq, ih]

theorem isSubstrOf_here (s b : Str) : isSubstrOf s (s ++ b) = true := by
  cases s with
  | nil =>
    cases b with
    | nil => rfl
    | cons c cs => simp [isSubstrOf, startsWithSeq]
  | cons c cs =>
    show isSubstrOf (c :: cs) ((c :: cs) ++ b) = true
    rw [List.cons_append]
    show (startsWithSeq (c :: cs) (c :: (cs ++ b)) || isSubstrOf (c :: cs) (cs ++ b)) = true
    rw [show c :: (cs ++ b) = (c :: cs) ++ b from rfl, startsWithSeq_append]
    rfl

theorem isSubstrOf_middle (a s b : Str) : isSubstrOf s (a ++ s ++ b) = true := by
  induction a with
  | nil => simpa using isSubstrOf_here s b
  | cons c cs ih =>
    cases s with
    | nil => simp [isSubstrOf, startsWithSeq]
    | cons x xs =>
      show (startsWithSeq (x :: xs) _ || isSubstrOf (x :: xs) (cs ++ (x :: xs) ++ b)) = true
      rw [ih]
      simp

theorem getLast?_pathJoin_suffix (a b s : Str) (h : s ≠ []) :
    (pathJoin a (b ++ s)).getLast? = s.getLast? := by
  unfold pathJoin
  rw [List.getLast?_append_of_ne_nil a (by simp),
    show '/' :: (b ++ s) = ('/' :: b) ++ s from rfl,
    List.getLast?_append_of_ne_nil ('/' :: b) h]

theorem json_dst_ne (a a' tf tf' : Str) :
    pathJoin a (tf ++ ".json".data) ≠ pathJoin a' (tf' ++ ".nii.gz".data) := by
  intro he
  have h1 := congrArg List.getLast? he
  rw [getLast?_pathJoin_suffix a tf ".json".data (by decide),
    getLast?_pathJoin_suffix a' tf' ".nii.gz".data (by decide)] at h1
  revert h1
  decide

theorem countP_bind (p : Placement → Bool) (l : List Str) (f : Str → List Placement) :
    (l.bind f).countP p = (l.map fun m => (f m).countP p).sum := by
  show ((l.map f).join).countP p = _
  rw [List.countP_join]
  rw [List.map_map]
  rfl

theorem sum_ite_eq_count (n : Str) (l : List Str) :
    (l.map fun m => if m = n then 1 else 0).sum = l.count n := by
  induction l with
  | nil => rfl
  | cons a as ih =>
    simp only [List.map_cons, List.sum_cons, List.count_cons, ih]
    by_cases ha : a = n
    · simp [ha]
      omega
    · simp [ha]

/-- C1: evaluating the Session Reconciler at the claim's collision
scenario — registry already holding (ses-001, 2021-01-05), one new raw
visit directory dated 2021-02-01 whose natural candidate is ses-001 —
shows that the collision search does append (ses-002, 2021-02-01) to the
registry, but the directory on disk is renamed to ses-001 (line 195 of
the source uses the loop index, not the identifier found by the search),
and no contained file is renamed (the glob of line 197 looks under the
non-existent ses-002).  The claim's required behaviour — rename directory
and files to ses-002 — does not happen. -/
theorem collision_rename_uses_loop_index :
    cleanupSubject [⟨"ses-20210201".data, ["sub-0001_ses-20210201_FLAIR.nii.gz".data]⟩]
        [⟨"ses-001".data, "2021-01-05".data⟩]
      = ⟨[⟨"ses-001".data, "2021-01-05".data⟩, ⟨"ses-002".data, "2021-02-01".data⟩],
         [⟨"ses-001".data, ["sub-0001_ses-20210201_FLAIR.nii.gz".data]⟩],
         [("ses-20210201".data, "ses-001".data)], []⟩ := by
  decide

/-- C2 (counterexample): a visit whose converter exited with status 1
still has its matching FLAIR output copied into the target layout, and
its log trail is identical to the log trail of the same visit with exit
status 0 — the failure is neither logged nor does it cause the visit to
be skipped for placement. -/
theorem converter_failure_placed_anyway :
    (Visit.mk "MSPATHS_0001".data "20210105".data 1 ["x_FLAIR_MS-P_a.nii.gz".data]).exitCode ≠ 0 ∧
    processVisit "/bids".data
        (Visit.mk "MSPATHS_0001".data "20210105".data 1 ["x_FLAIR_MS-P_a.nii.gz".data]) ≠ [] ∧
    visitLogs (Visit.mk "MSPATHS_0001".data "20210105".data 1 ["x_FLAIR_MS-P_a.nii.gz".data]) =
      visitLogs (Visit.mk "MSPATHS_0001".data "20210105".data 0 ["x_FLAIR_MS-P_a.nii.gz".data]) := by
  exact ⟨by decide, by decide, rfl⟩

/-- C2 (amended): the converter's exit status is never inspected — the
placements made and the log events emitted for a visit are exactly the
same whatever the exit code, so placement proceeds over whatever output
files exist (a failed conversion that produced no matching outputs
incidentally gets nothing placed), and the loop continues with the next
visit. -/
theorem converter_exit_ignored (br : Str) (v : Visit) (e e' : Int) :
    processVisit br { v with exitCode := e } = processVisit br { v with exitCode := e' } ∧
    visitLogs { v with exitCode := e } = visitLogs { v with exitCode := e' } := by
  cases v
  exact ⟨rfl, rfl⟩

/-- C6 (counterexample): for raw visit directories dated 2021-03-10,
2021-01-05, 2021-01-05 (that discovery order) and an empty registry, the
claim's example assignment maps 2021-03-10 to ses-002; the code does
not — no registry row pairs ses-002 with 2021-03-10 (2021-03-10 in fact
receives ses-003, shown in the companion theorem). -/
theorem ordering_example_not_spec_assignment :
    RegRow.mk "ses-002".data "2021-03-10".data ∉
      (cleanupSubject [⟨"ses-20210310".data, []⟩, ⟨"ses-20210105".data, []⟩,
          ⟨"ses-20210105".data, []⟩] []).df := by
  decide

/-- C6 (amended): raw names are processed in ascending date order with
equal dates keeping their discovery order, and for discovery order
2021-03-10, 2021-01-05, 2021-01-05 the registry rows and directory
renames come out as ses-001 and ses-002 for the two 2021-01-05
directories (in discovery order) and ses-003 for 2021-03-10 — not the
ses-002, ses-001, ses-003 of the claim's example. -/
theorem ordering_example_assignment :
    (cleanupSubject [⟨"ses-20210310".data, []⟩, ⟨"ses-20210105".data, []⟩,
        ⟨"ses-20210105".data, []⟩] []).df
      = [⟨"ses-001".data, "2021-01-05".data⟩, ⟨"ses-002".data, "2021-01-05".data⟩,
         ⟨"ses-003".data, "2021-03-10".data⟩] ∧
    (cleanupSubject [⟨"ses-20210310".data, []⟩, ⟨"ses-20210105".data, []⟩,
        ⟨"ses-20210105".data, []⟩] []).dirRenames
      = [("ses-20210105".data, "ses-001".data), ("ses-20210105".data, "ses-002".data),
         ("ses-20210310".data, "ses-003".data)] := by
  exact ⟨by decide, by decide⟩

/-- C8 (counterexample): persisting the registry of the scenario subject
is not a write-new-then-replace sequence — the operation trace produced
by the source's to_csv call fails the write-new-then-replace shape
check. -/
theorem save_not_write_new_then_replace :
    isWriteNewThenReplace (sessionsTsvPath "/b/sub-0001".data "0001".data)
      (saveRegistryOps "/b/sub-0001".data "0001".data [⟨"ses-001".data, "2021-01-05".data⟩])
      = false := by
  rfl

/-- C8 (amended): persisting a subject's registry is a full rewrite with
no in-place row edits — the trace is exactly one write of the completely
re-rendered table (every record appears in the written content), and
that single write goes directly to the final registry path, with no
separate new file and no replacing rename. -/
theorem save_single_direct_write (subjectDir subjectId : Str) (df : List RegRow) :
    saveRegistryOps subjectDir subjectId df =
      [FsOp.write (sessionsTsvPath subjectDir subjectId) (renderTsv df)] ∧
    ∀ r ∈ df, isSubstrOf (renderRow r) (renderTsv df) = true := by
  refine ⟨rfl, ?_⟩
  intro r hr
  rcases List.append_of_mem hr with ⟨l1, l2, rfl⟩
  show isSubstrOf (renderRow r)
    ("session_id\tacq_time\n".data ++ (l1 ++ r :: l2).flatMap renderRow) = true
  rw [List.append_bind, List.cons_bind]
  have hmid := isSubstrOf_middle ("session_id\tacq_time\n".data ++ l1.bind renderRow)
    (renderRow r) (l2.bind renderRow)
  simpa [List.append_assoc] using hmid

/-- C8 (witness): the amended save theorem applied to a one-row registry. -/
theorem save_single_direct_write_witness :
    saveRegistryOps "/b/sub-0001".data "0001".data [⟨"ses-001".data, "2021-01-05".data⟩] =
      [FsOp.write (sessionsTsvPath "/b/sub-0001".data "0001".data)
        (renderTsv [⟨"ses-001".data, "2021-01-05".data⟩])] ∧
    isSubstrOf (renderRow ⟨"ses-001".data, "2021-01-05".data⟩)
      (renderTsv [⟨"ses-001".data, "2021-01-05".data⟩]) = true :=
  ⟨(save_single_direct_write "/b/sub-0001".data "0001".data
      [⟨"ses-001".data, "2021-01-05".data⟩]).1,
   (save_single_direct_write "/b/sub-0001".data "0001".data
      [⟨"ses-001".data, "2021-01-05".data⟩]).2 ⟨"ses-001".data, "2021-01-05".data⟩
      (by decide)⟩

/-- C3 (counterexample): starting from a registry that satisfies both
uniqueness invariants — the single row (ses-002, 2021-01-05) — one
Reconciler pass over a raw directory dated 2021-01-05 appends
(ses-001, 2021-01-05): the natural candidate ses-001 is absent from the
registry, so the date is never compared against the date already stored
under ses-002, and afterwards two records share the date 2021-01-05. -/
theorem registry_dates_duplicated :
    (([⟨"ses-002".data, "2021-01-05".data⟩] : List RegRow).map fun r => r.acq_time).Nodup ∧
    (([⟨"ses-002".data, "2021-01-05".data⟩] : List RegRow).map fun r => r.session_id).Nodup ∧
    ¬ (((cleanupSubject [⟨"ses-20210105".data, []⟩]
          [⟨"ses-002".data, "2021-01-05".data⟩]).df.map fun r => r.acq_time).Nodup) := by
  exact ⟨by decide, by decide, by decide⟩

/-- C3 (amended): identifier uniqueness does hold at every observation
point — for every number of completed loop iterations, if the loaded
registry had pairwise distinct identifiers then the registry after those
iterations still has pairwise distinct identifiers (each appended row
carries an identifier checked to be absent before any mutation).  Date
uniqueness, the other half of the claim, is refuted by the companion
counterexample. -/
theorem registry_ids_nodup (dirs0 : List Dir) (df0 : List RegRow) (n : Nat)
    (h : (df0.map fun r => r.session_id).Nodup) :
    (((cleanupIters dirs0 df0 n).df).map fun r => r.session_id).Nodup := by
  unfold cleanupIters
  apply foldSteps_inv (fun st => (st.df.map fun r => r.session_id).Nodup)
  · intro st s raw hst
    rcases cleanupStep_df_char st s raw with hsame | ⟨id, date, happ, hfree⟩
    · rw [hsame]; exact hst
    · rw [happ, List.map_append]
      rw [List.nodup_append]
      refine ⟨hst, List.nodup_singleton _, ?_⟩
      intro x hx hx'
      simp only [List.map_cons, List.map_nil, List.mem_singleton] at hx'
      subst hx'
      exact hfree hx
  · exact h

/-- C3 (witness): the identifier-uniqueness theorem applied to a concrete
subject — one already-reconciled directory, one raw directory, and a
two-row registry with distinct identifiers — after both iterations. -/
theorem registry_ids_nodup_witness :
    (((cleanupIters [⟨"ses-001".data, []⟩, ⟨"ses-20210201".data, []⟩]
        [⟨"ses-001".data, "2021-01-05".data⟩, ⟨"ses-002".data, "2021-03-10".data⟩] 2).df).map
          fun r => r.session_id).Nodup :=
  registry_ids_nodup [⟨"ses-001".data, []⟩, ⟨"ses-20210201".data, []⟩]
    [⟨"ses-001".data, "2021-01-05".data⟩, ⟨"ses-002".data, "2021-03-10".data⟩] 2 (by decide)

/-- C4: rerunning the Reconciler when no raw date-stamped visit
directories remain — every session directory name, stripped of its
ses- marker, fails to parse as a date — performs no directory rename, no
file rename, and leaves the registry rows and the disk untouched. -/
theorem cleanup_rerun_noop (dirs0 : List Dir) (df0 : List RegRow)
    (h : ∀ d ∈ dirs0, pyStrptimeYmd (listReplace "ses-".data [] d.name) = none) :
    cleanupSubject dirs0 df0 = ⟨df0, dirs0, [], []⟩ := by
  unfold cleanupSubject cleanupIters
  apply foldSteps_noop
  intro p hp
  have h2 : p.2 ∈ sortedSessions dirs0 := List.snd_mem_of_mem_enum (List.mem_of_mem_take hp)
  have h3 : p.2 ∈ sessionNames dirs0 := mem_sortStr.1 h2
  rcases List.mem_map.1 h3 with ⟨d, hd, hdr⟩
  rw [← hdr]
  exact h d (List.mem_of_mem_filter hd)

/-- C4 (witness): the no-op theorem applied to a subject whose two
session directories are both already reconciled. -/
theorem cleanup_rerun_noop_witness :
    cleanupSubject [⟨"ses-001".data, ["sub-0001_ses-001_FLAIR.nii.gz".data]⟩, ⟨"ses-002".data, []⟩]
        [⟨"ses-001".data, "2021-01-05".data⟩, ⟨"ses-002".data, "2021-02-01".data⟩]
      = ⟨[⟨"ses-001".data, "2021-01-05".data⟩, ⟨"ses-002".data, "2021-02-01".data⟩],
         [⟨"ses-001".data, ["sub-0001_ses-001_FLAIR.nii.gz".data]⟩, ⟨"ses-002".data, []⟩],
         [], []⟩ :=
  cleanup_rerun_noop
    [⟨"ses-001".data, ["sub-0001_ses-001_FLAIR.nii.gz".data]⟩, ⟨"ses-002".data, []⟩]
    [⟨"ses-001".data, "2021-01-05".data⟩, ⟨"ses-002".data, "2021-02-01".data⟩]
    (by decide)

/-- C5 (counterexample): an archive containing one well-formed visit
whose converter failed (exit status 2) and produced no derivative files
is still appended to the ledger — the visit-level failure does not
prevent marking — but that visit's complete log trail is just the
unconditional converting info line: neither the conversion failure nor
the missing expected derivatives is logged, contrary to the claim that
such failures are logged. -/
theorem visit_failures_unlogged_archive_marked :
    (extract_bundle (some []) "/src/c.zip".data true
        (some [⟨"MSPATHS_0001".data, "20210105".data, 2, []⟩]) "/bids".data).ledger
      = some ["/src/c.zip".data] ∧
    (⟨"MSPATHS_0001".data, "20210105".data, 2, []⟩ : Visit).exitCode ≠ 0 ∧
    visitLogs ⟨"MSPATHS_0001".data, "20210105".data, 2, []⟩
      = [LogEvent.converting "0001".data "20210105".data] := by
  exact ⟨by decide, by decide, by decide⟩

/-- C5 (amended): when the skip check does not fire, the archive path is
appended to the completion ledger exactly when extraction succeeded — an
extraction failure returns with the ledger unchanged — and whatever the
extracted visits contain, the path is still appended afterwards, so
visit-level failures inside a successfully extracted archive cannot
prevent marking; such failures are however not logged: any contained
visit with a well-formed name whose converter left no output files
(failed conversion, missing expected derivatives) emits only the
unconditional converting info line. -/
theorem ledger_marking_policy (ledger : Option (List Str)) (path : Str)
    (skip : Bool) (archive : Option (List Visit)) (br : Str)
    (h : (skip && ledgerHas ledger path) = false) :
    (archive = none →
      (extract_bundle ledger path skip archive br).ledger = ledger) ∧
    (∀ visits, archive = some visits →
      (extract_bundle ledger path skip archive br).ledger = appendLedger ledger path ∧
      ∀ v ∈ visits, ∀ subj, (splitChar '_' v.parentName).get? 1 = some subj →
        v.producedFiles = [] →
        visitLogs v = [LogEvent.converting subj v.sessionName]) := by
  constructor
  · intro ha
    subst ha
    simp [extract_bundle, h]
  · intro visits ha
    subst ha
    constructor
    · simp [extract_bundle, h]
    · intro v _ subj hsubj hempty
      unfold visitLogs
      rw [hsubj, hempty]
      rfl

/-- C5 (witness): the marking-policy theorem applied to a concrete run —
one-entry ledger, skip enabled but the path not yet listed, archive
holding one failing visit. -/
theorem ledger_marking_policy_witness :
    ((some [⟨"MSPATHS_0001".data, "20210105".data, 2, []⟩] : Option (List Visit)) = none →
      (extract_bundle (some ["/src/a.zip".data]) "/src/c.zip".data true
        (some [⟨"MSPATHS_0001".data, "20210105".data, 2, []⟩]) "/bids".data).ledger
        = some ["/src/a.zip".data]) ∧
    (∀ visits,
      (some [⟨"MSPATHS_0001".data, "20210105".data, 2, []⟩] : Option (List Visit))
        = some visits →
      (extract_bundle (some ["/src/a.zip".data]) "/src/c.zip".data true
        (some [⟨"MSPATHS_0001".data, "20210105".data, 2, []⟩]) "/bids".data).ledger
        = appendLedger (some ["/src/a.zip".data]) "/src/c.zip".data ∧
      ∀ v ∈ visits, ∀ subj, (splitChar '_' v.parentName).get? 1 = some subj →
        v.producedFiles = [] →
        visitLogs v = [LogEvent.converting subj v.sessionName]) :=
  ledger_marking_policy (some ["/src/a.zip".data]) "/src/c.zip".data true
    (some [⟨"MSPATHS_0001".data, "20210105".data, 2, []⟩]) "/bids".data (by decide)

/-- C7: an archive whose path is already on the completion ledger is,
with the skip option enabled, returned from without any extraction: the
result carries no placement, no visit, and the very same ledger. -/
theorem processed_archive_skipped (l : List Str) (path : Str)
    (archive : Option (List Visit)) (br : Str) (h : path ∈ l) :
    extract_bundle (some l) path true archive br = ⟨some l, [], []⟩ := by
  unfold extract_bundle
  have hl : ledgerHas (some l) path = true := by
    simpa [ledgerHas] using h
  rw [hl]
  rfl

/-- C7 (witness): the skip theorem applied to a concrete two-entry
ledger and an archive that could otherwise have placed files. -/
theorem processed_archive_skipped_witness :
    extract_bundle (some ["/src/a.zip".data, "/src/b.zip".data]) "/src/b.zip".data true
        (some [⟨"MSPATHS_0001".data, "20210105".data, 0, ["x_FLAIR_MS-P_a.nii.gz".data]⟩])
        "/bids".data
      = ⟨some ["/src/a.zip".data, "/src/b.zip".data], [], []⟩ :=
  processed_archive_skipped ["/src/a.zip".data, "/src/b.zip".data] "/src/b.zip".data
    (some [⟨"MSPATHS_0001".data, "20210105".data, 0, ["x_FLAIR_MS-P_a.nii.gz".data]⟩])
    "/bids".data (by decide)

theorem perNifti_dst (targetDir subject session : Str) (produced : List Str) (m : Str)
    (p : Placement) (hp : p ∈ perNifti targetDir subject session produced m) :
    ∃ fname, p.dst = pathJoin targetDir fname := by
  simp only [perNifti] at hp
  rcases List.mem_cons.1 hp with h1 | h2
  · exact ⟨_, by rw [h1]⟩
  · by_cases hsc : listReplace ".nii.gz".data ".json".data m ∈ produced
    · rw [if_pos hsc] at h2
      rcases List.mem_singleton.1 h2 with h3
      exact ⟨_, by rw [h3]⟩
    · rw [if_neg hsc] at h2
      simp at h2

/-- C9: bundle extraction labels every placed file with the visit
directory's name taken verbatim — each placement's destination lies
under the directory built from ses- followed by the raw session name —
while stable numbered identifiers only enter through the later cleanup
pass, whose every directory rename maps a ses- plus date-stamp name
(one that parses as a date) to a ses- plus zero-padded ordinal name. -/
theorem raw_session_label_then_rename :
    (∀ (br : Str) (v : Visit) (p : Placement), p ∈ processVisit br v →
      ∃ subj fname, (splitChar '_' v.parentName).get? 1 = some subj ∧
        p.dst = pathJoin (targetDirOf br subj v.sessionName) fname) ∧
    (∀ (dirs0 : List Dir) (df0 : List RegRow) (n : Nat) (pr : Str × Str),
      pr ∈ (cleanupIters dirs0 df0 n).dirRenames →
      ∃ raw ymd s, pyStrptimeYmd raw = some ymd ∧
        pr = ("ses-".data ++ raw, sesIdStr (s + 1))) := by
  constructor
  · intro br v p hp
    unfold processVisit at hp
    cases hs : (splitChar '_' v.parentName).get? 1 with
    | none =>
      rw [hs] at hp
      simp at hp
    | some subj =>
      rw [hs] at hp
      rcases List.mem_bind.1 hp with ⟨m, _, hpm⟩
      rcases perNifti_dst (targetDirOf br subj v.sessionName) subj v.sessionName
        v.producedFiles m p hpm with ⟨fname, hf⟩
      exact ⟨subj, fname, rfl, hf⟩
  · intro dirs0 df0 n pr hpr
    unfold cleanupIters at hpr
    refine foldSteps_inv
      (fun st => ∀ q ∈ st.dirRenames, ∃ raw ymd s, pyStrptimeYmd raw = some ymd ∧
        q = ("ses-".data ++ raw, sesIdStr (s + 1)))
      ?_ _ _ ?_ pr hpr
    · intro st s raw hst q hq
      rcases cleanupStep_dirRenames_char st s raw with hsame | ⟨ymd, hymd, happ⟩
      · rw [hsame] at hq
        exact hst q hq
      · rw [happ] at hq
        rcases List.mem_append.1 hq with h1 | h2
        · exact hst q h1
        · rcases List.mem_singleton.1 h2 with rfl
          exact ⟨raw, ymd, s, hymd, rfl⟩
    · intro q hq
      simp at hq

/-- C9 (witness): the labelling theorem applied to a concrete visit and
its computed placement, and the rename theorem applied to a concrete
one-directory subject. -/
theorem raw_session_label_then_rename_witness :
    (∃ subj fname,
      (splitChar '_' ("MSPATHS_0001".data : Str)).get? 1 = some subj ∧
      (Placement.mk "x_FLAIR_MS-P_a.nii.gz".data
          "/bids/sub-0001/ses-20210105/anat/sub-0001_ses-20210105_FLAIR.nii.gz".data).dst
        = pathJoin (targetDirOf "/bids".data subj "20210105".data) fname) ∧
    (∃ raw ymd s, pyStrptimeYmd raw = some ymd ∧
      (("ses-20210201".data, "ses-001".data) : Str × Str)
        = ("ses-".data ++ raw, sesIdStr (s + 1))) :=
  ⟨raw_session_label_then_rename.1 "/bids".data
      ⟨"MSPATHS_0001".data, "20210105".data, 0, ["x_FLAIR_MS-P_a.nii.gz".data]⟩
      ⟨"x_FLAIR_MS-P_a.nii.gz".data,
        "/bids/sub-0001/ses-20210105/anat/sub-0001_ses-20210105_FLAIR.nii.gz".data⟩
      (by decide),
   raw_session_label_then_rename.2 [⟨"ses-20210201".data, []⟩] [] 1
      ("ses-20210201".data, "ses-001".data) (by decide)⟩

theorem countP_perNifti (targetDir subj ses : Str) (produced : List Str) (n m : Str)
    (hFLAIR : isSubstrOf "FLAIR".data n = true) :
    (perNifti targetDir subj ses produced m).countP
      (fun p => decide (p.src = n ∧ p.dst = pathJoin targetDir
        (("sub-".data ++ subj ++ "_ses-".data ++ ses ++ '_' :: modalityOf n)
          ++ ".nii.gz".data)))
      = if m = n then 1 else 0 := by
  simp only [perNifti]
  rw [List.countP_cons]
  by_cases hm : m = n
  · subst hm
    rw [if_pos rfl]
    have hsrc : (decide ((Placement.mk m (pathJoin targetDir
        (("sub-".data ++ subj ++ "_ses-".data ++ ses ++ '_' :: modalityOf m)
          ++ ".nii.gz".data))).src = m ∧
        (Placement.mk m (pathJoin targetDir
        (("sub-".data ++ subj ++ "_ses-".data ++ ses ++ '_' :: modalityOf m)
          ++ ".nii.gz".data))).dst = pathJoin targetDir
        (("sub-".data ++ subj ++ "_ses-".data ++ ses ++ '_' :: modalityOf m)
          ++ ".nii.gz".data))) = true := decide_eq_true ⟨rfl, rfl⟩
    rw [hsrc]
    by_cases hsc : listReplace ".nii.gz".data ".json".data m ∈ produced
    · rw [if_pos hsc, List.countP_cons]
      have hjson : (decide ((Placement.mk (listReplace ".nii.gz".data ".json".data m)
          (pathJoin targetDir
            (("sub-".data ++ subj ++ "_ses-".data ++ ses ++ '_' :: modalityOf m)
              ++ ".json".data))).src = m ∧
          (Placement.mk (listReplace ".nii.gz".data ".json".data m)
          (pathJoin targetDir
            (("sub-".data ++ subj ++ "_ses-".data ++ ses ++ '_' :: modalityOf m)
              ++ ".json".data))).dst = pathJoin targetDir
          (("sub-".data ++ subj ++ "_ses-".data ++ ses ++ '_' :: modalityOf m)
            ++ ".nii.gz".data))) = false := by
        apply decide_eq_false
        rintro ⟨-, hdst⟩
        exact json_dst_ne targetDir targetDir _ _ hdst
      rw [hjson]
      rfl
    · rw [if_neg hsc]
      rfl
  · rw [if_neg hm]
    have hsrc : (decide ((Placement.mk m (pathJoin targetDir
        (("sub-".data ++ subj ++ "_ses-".data ++ ses ++ '_' :: modalityOf m)
          ++ ".nii.gz".data))).src = n ∧
        (Placement.mk m (pathJoin targetDir
        (("sub-".data ++ subj ++ "_ses-".data ++ ses ++ '_' :: modalityOf m)
          ++ ".nii.gz".data))).dst = pathJoin targetDir
        (("sub-".data ++ subj ++ "_ses-".data ++ ses ++ '_' :: modalityOf n)
          ++ ".nii.gz".data))) = false := by
      apply decide_eq_false
      rintro ⟨hsrc', -⟩
      exact hm hsrc'
    rw [hsrc]
    by_cases hsc : listReplace ".nii.gz".data ".json".data m ∈ produced
    · rw [if_pos hsc, List.countP_cons]
      have hjson : (decide ((Placement.mk (listReplace ".nii.gz".data ".json".data m)
          (pathJoin targetDir
            (("sub-".data ++ subj ++ "_ses-".data ++ ses ++ '_' :: modalityOf m)
              ++ ".json".data))).src = n ∧
          (Placement.mk (listReplace ".nii.gz".data ".json".data m)
          (pathJoin targetDir
            (("sub-".data ++ subj ++ "_ses-".data ++ ses ++ '_' :: modalityOf m)
              ++ ".json".data))).dst = pathJoin targetDir
          (("sub-".data ++ subj ++ "_ses-".data ++ ses ++ '_' :: modalityOf n)
            ++ ".nii.gz".data))) = false := by
        apply decide_eq_false
        rintro ⟨-, hdst⟩
        exact json_dst_ne targetDir targetDir _ _ hdst
      rw [hjson]
      rfl
    · rw [if_neg hsc]
      rfl

/-- C10: classification gives FLAIR precedence — a file whose name
contains FLAIR is classified FLAIR even when it also matches the T1
pattern — and a file matched by both filename patterns appears in both
match lists, so it is copied to its FLAIR-named target path once per
matching pattern: among the visit's placements, exactly two copy that
file to that FLAIR-named destination. -/
theorem flair_precedence_double_copy (br : Str) (v : Visit) (subj n : Str)
    (hsubj : (splitChar '_' v.parentName).get? 1 = some subj)
    (hcount : v.producedFiles.count n = 1)
    (hf : globMatch flairPat n = true)
    (ht : globMatch t1Pat n = true)
    (hFLAIR : isSubstrOf "FLAIR".data n = true) :
    modalityOf n = "FLAIR".data ∧
    ((processVisit br v).countP fun p =>
      decide (p.src = n ∧ p.dst = pathJoin (targetDirOf br subj v.sessionName)
        (("sub-".data ++ subj ++ "_ses-".data ++ v.sessionName ++ '_' :: modalityOf n)
          ++ ".nii.gz".data))) = 2 := by
  have hmod : modalityOf n = "FLAIR".data := by
    simp [modalityOf, hFLAIR]
  refine ⟨hmod, ?_⟩
  have hpv : processVisit br v =
      (v.producedFiles.filter (fun x => globMatch flairPat x) ++
       v.producedFiles.filter (fun x => globMatch t1Pat x)).bind
        (perNifti (targetDirOf br subj v.sessionName) subj v.sessionName v.producedFiles) := by
    unfold processVisit
    rw [hsubj]
  rw [hpv, countP_bind]
  have hmap : (v.producedFiles.filter (fun x => globMatch flairPat x) ++
       v.producedFiles.filter (fun x => globMatch t1Pat x)).map
        (fun m => (perNifti (targetDirOf br subj v.sessionName) subj v.sessionName
          v.producedFiles m).countP
          (fun p => decide (p.src = n ∧ p.dst = pathJoin (targetDirOf br subj v.sessionName)
            (("sub-".data ++ subj ++ "_ses-".data ++ v.sessionName ++ '_' :: modalityOf n)
              ++ ".nii.gz".data))))
      = (v.producedFiles.filter (fun x => globMatch flairPat x) ++
       v.producedFiles.filter (fun x => globMatch t1Pat x)).map
        (fun m => if m = n then 1 else 0) :=
    List.map_congr_left fun m _ =>
      countP_perNifti (targetDirOf br subj v.sessionName) subj v.sessionName
        v.producedFiles n m hFLAIR
  rw [hmap, sum_ite_eq_count, List.count_append,
    List.count_filter hf, List.count_filter ht, hcount]

/-- C10 (witness): the precedence theorem applied to a concrete visit
containing one file matching both the FLAIR and the T1 patterns. -/
theorem flair_precedence_double_copy_witness :
    modalityOf "a_T1_FLAIR_MS-P_1.nii.gz".data = "FLAIR".data ∧
    ((processVisit "/bids".data
        ⟨"MSPATHS_0001".data, "20210105".data, 0, ["a_T1_FLAIR_MS-P_1.nii.gz".data]⟩).countP
      fun p => decide (p.src = "a_T1_FLAIR_MS-P_1.nii.gz".data ∧
        p.dst = pathJoin (targetDirOf "/bids".data "0001".data "20210105".data)
          (("sub-".data ++ "0001".data ++ "_ses-".data ++ "20210105".data
            ++ '_' :: modalityOf "a_T1_FLAIR_MS-P_1.nii.gz".data) ++ ".nii.gz".data))) = 2 :=
  flair_precedence_double_copy "/bids".data
    ⟨"MSPATHS_0001".data, "20210105".data, 0, ["a_T1_FLAIR_MS-P_1.nii.gz".data]⟩
    "0001".data "a_T1_FLAIR_MS-P_1.nii.gz".data
    (by decide) (by decide) (by decide) (by decide) (by decide)
